import Mathlib

/-!
Shallow embedding of the chrono-boost Pomodoro timer core
(the zustand store in the repository, plus the tick loop of
`PomodoroTimerExtension.tsx` and the save handler of `SettingsModal.tsx`).

Conventions of the embedding:
* JS numbers that only ever hold non-negative integer values (durations,
  minutes, seconds, counters) are `Nat`.
* `Date` values (`Date.now()`, `new Date()`) are `Nat` timestamps supplied
  explicitly as a `now` argument; the calendar-day key
  `toISOString().split('T')[0]` is modelled by an abstract
  `dayOf : Nat → String` argument, and the current day by a `today : String`
  argument.
* `Partial<PomodoroSettings>` is a record of `Option` fields; the spread
  merge `{...settings, ...partial}` keeps the old value exactly when the
  field is absent (`none`).
* JS truthiness of a number (in `if (newSettings.pomodoroDuration && ...)`)
  is `d ≠ 0` on the present value.
-/

namespace ChronoBoost

inductive Mode where
  | pomodoro
  | shortBreak
  | longBreak
deriving DecidableEq, BEq

inductive Theme where
  | light
  | dark
  | system
deriving DecidableEq, BEq

/-- `Task` from the store: id, text, completed, createdAt, optional completedAt. -/
structure Task where
  id : String
  text : String
  completed : Bool
  createdAt : Nat
  completedAt : Option Nat := none
deriving DecidableEq

/-- `PomodoroSettings` from the store. -/
structure PomodoroSettings where
  pomodoroDuration : Nat
  shortBreakDuration : Nat
  longBreakDuration : Nat
  longBreakInterval : Nat
  autoStartBreaks : Bool
  autoStartPomodoros : Bool
  notifications : Bool
  sounds : Bool
  theme : Theme
deriving DecidableEq

/-- `TimerState` from the store. -/
structure TimerState where
  minutes : Nat
  seconds : Nat
  isRunning : Bool
  mode : Mode
  completedPomodoros : Nat
  currentCycle : Nat
deriving DecidableEq

/-- One row of `dailyStats` from the store. -/
structure DailyStat where
  date : String
  completedPomodoros : Nat
  totalFocusTime : Nat
  completedTasks : Nat
deriving DecidableEq

/-- The persisted `PomodoroState` aggregate (data fields of the store). -/
structure PomodoroState where
  timer : TimerState
  tasks : List Task
  settings : PomodoroSettings
  dailyStats : List DailyStat
deriving DecidableEq

/-- `Partial<PomodoroSettings>`: every field optional. -/
structure SettingsPatch where
  pomodoroDuration : Option Nat := none
  shortBreakDuration : Option Nat := none
  longBreakDuration : Option Nat := none
  longBreakInterval : Option Nat := none
  autoStartBreaks : Option Bool := none
  autoStartPomodoros : Option Bool := none
  notifications : Option Bool := none
  sounds : Option Bool := none
  theme : Option Theme := none
deriving DecidableEq

/-- JS `String.prototype.trim()`: drop leading and trailing whitespace.
Modelled directly on the character list so that it is kernel-executable. -/
def jsTrim (s : String) : String :=
  String.mk
    (((s.toList.dropWhile Char.isWhitespace).reverse.dropWhile
        Char.isWhitespace).reverse)

/-- `defaultSettings` from the store. -/
def defaultSettings : PomodoroSettings :=
  { pomodoroDuration := 25
    shortBreakDuration := 5
    longBreakDuration := 15
    longBreakInterval := 4
    autoStartBreaks := false
    autoStartPomodoros := false
    notifications := true
    sounds := true
    theme := Theme.system }

/-- `defaultTimer` from the store. -/
def defaultTimer : TimerState :=
  { minutes := 25
    seconds := 0
    isRunning := false
    mode := Mode.pomodoro
    completedPomodoros := 0
    currentCycle := 1 }

/-- The store's initial state. -/
def initialState : PomodoroState :=
  { timer := defaultTimer
    tasks := []
    settings := defaultSettings
    dailyStats := [] }

/-- The mode-to-duration conditional used verbatim in `resetTimer` and
`completeTimer`:
`mode === 'pomodoro' ? pomodoroDuration : mode === 'shortBreak' ? shortBreakDuration : longBreakDuration`. -/
def durationFor (settings : PomodoroSettings) (m : Mode) : Nat :=
  if m = Mode.pomodoro then settings.pomodoroDuration
  else if m = Mode.shortBreak then settings.shortBreakDuration
  else settings.longBreakDuration

/-- `startTimer` from the store. -/
def startTimer (s : PomodoroState) : PomodoroState :=
  { s with timer := { s.timer with isRunning := true } }

/-- `pauseTimer` from the store. -/
def pauseTimer (s : PomodoroState) : PomodoroState :=
  { s with timer := { s.timer with isRunning := false } }

/-- `resetTimer` from the store. -/
def resetTimer (s : PomodoroState) : PomodoroState :=
  { s with timer :=
      { s.timer with
        minutes := durationFor s.settings s.timer.mode
        seconds := 0
        isRunning := false } }

/-- `updateDailyStats` from the store. `today` is
`new Date().toISOString().split('T')[0]` and `dayOf` maps a stored
timestamp to its day key the same way. -/
def updateDailyStats (today : String) (dayOf : Nat → String)
    (s : PomodoroState) : PomodoroState :=
  let completedTasksToday :=
    (s.tasks.filter fun task =>
      task.completed &&
        (match task.completedAt with
         | some d => dayOf d == today
         | none => false)).length
  if s.dailyStats.any fun stat => stat.date == today then
    { s with dailyStats := s.dailyStats.map fun stat =>
        if stat.date == today then
          { stat with
            completedPomodoros := s.timer.completedPomodoros
            totalFocusTime :=
              s.timer.completedPomodoros * s.settings.pomodoroDuration
            completedTasks := completedTasksToday }
        else stat }
  else
    { s with dailyStats := s.dailyStats ++
        [{ date := today
           completedPomodoros := s.timer.completedPomodoros
           totalFocusTime :=
             s.timer.completedPomodoros * s.settings.pomodoroDuration
           completedTasks := completedTasksToday }] }

/-- The timer-mutating part of `completeTimer` (lines computing `newMode`,
`newCompletedPomodoros`, `newCycle`, `duration` and the `set` call). -/
def completeTimerCore (settings : PomodoroSettings) (t : TimerState) :
    TimerState :=
  let newCompletedPomodoros :=
    if t.mode = Mode.pomodoro then t.completedPomodoros + 1
    else t.completedPomodoros
  let newMode :=
    if t.mode = Mode.pomodoro then
      if newCompletedPomodoros % settings.longBreakInterval = 0 then
        Mode.longBreak
      else Mode.shortBreak
    else Mode.pomodoro
  let newCycle :=
    if t.mode = Mode.longBreak then t.currentCycle + 1 else t.currentCycle
  let duration := durationFor settings newMode
  { t with
    mode := newMode
    minutes := duration
    seconds := 0
    isRunning :=
      settings.autoStartBreaks ||
        (newMode == Mode.pomodoro && settings.autoStartPomodoros)
    completedPomodoros := newCompletedPomodoros
    currentCycle := newCycle }

/-- `completeTimer` from the store: timer transition, then
`get().updateDailyStats()`. -/
def completeTimer (today : String) (dayOf : Nat → String)
    (s : PomodoroState) : PomodoroState :=
  updateDailyStats today dayOf
    { s with timer := completeTimerCore s.settings s.timer }

/-- The per-second interval body of `PomodoroTimerExtension.tsx`
(and the decrement logic of `updateTimer` in `background.js`):
decrement seconds, borrow a minute on underflow, and at 0:00 call
`completeTimer`. -/
def tick (today : String) (dayOf : Nat → String)
    (s : PomodoroState) : PomodoroState :=
  if s.timer.seconds > 0 then
    { s with timer := { s.timer with seconds := s.timer.seconds - 1 } }
  else if s.timer.minutes > 0 then
    { s with timer :=
        { s.timer with minutes := s.timer.minutes - 1, seconds := 59 } }
  else
    completeTimer today dayOf s

/-- Total remaining seconds of the countdown. -/
def totalSeconds (s : PomodoroState) : Nat :=
  s.timer.minutes * 60 + s.timer.seconds

/-- `addTask` from the store: id is `Date.now().toString()`, text is
trimmed, createdAt is the current time, no completedAt. -/
def addTask (now : Nat) (text : String) (s : PomodoroState) : PomodoroState :=
  { s with tasks := s.tasks ++
      [{ id := toString now
         text := jsTrim text
         completed := false
         createdAt := now
         completedAt := none }] }

/-- `handleAddTask` from `PomodoroTimerExtension.tsx`:
`if (!newTaskText.trim()) return; addTask(newTaskText);`. -/
def handleAddTask (now : Nat) (text : String) (s : PomodoroState) :
    PomodoroState :=
  if jsTrim text = "" then s else addTask now text s

/-- `toggleTask` from the store: flip `completed`, stamp `completedAt`
when turning completed and clear it otherwise, then
`get().updateDailyStats()`. -/
def toggleTask (now : Nat) (today : String) (dayOf : Nat → String)
    (id : String) (s : PomodoroState) : PomodoroState :=
  updateDailyStats today dayOf
    { s with tasks := s.tasks.map fun task =>
        if task.id == id then
          { task with
            completed := !task.completed
            completedAt := if !task.completed then some now else none }
        else task }

/-- `updateTask` from the store. -/
def updateTask (id : String) (text : String) (s : PomodoroState) :
    PomodoroState :=
  { s with tasks := s.tasks.map fun task =>
      if task.id == id then { task with text := jsTrim text } else task }

/-- `deleteTask` from the store. -/
def deleteTask (id : String) (s : PomodoroState) : PomodoroState :=
  { s with tasks := s.tasks.filter fun task => task.id != id }

/-- The spread merge `{ ...state.settings, ...newSettings }`. -/
def mergeSettings (old : PomodoroSettings) (p : SettingsPatch) :
    PomodoroSettings :=
  { pomodoroDuration := p.pomodoroDuration.getD old.pomodoroDuration
    shortBreakDuration := p.shortBreakDuration.getD old.shortBreakDuration
    longBreakDuration := p.longBreakDuration.getD old.longBreakDuration
    longBreakInterval := p.longBreakInterval.getD old.longBreakInterval
    autoStartBreaks := p.autoStartBreaks.getD old.autoStartBreaks
    autoStartPomodoros := p.autoStartPomodoros.getD old.autoStartPomodoros
    notifications := p.notifications.getD old.notifications
    sounds := p.sounds.getD old.sounds
    theme := p.theme.getD old.theme }

/-- `updateSettings` from the store: merge the partial settings, then
reset the timer only under
`if (newSettings.pomodoroDuration && timer.mode === 'pomodoro')`
(JS truthiness: the field is present and nonzero), taking the minutes from
the merged `settings.pomodoroDuration`. -/
def updateSettings (p : SettingsPatch) (s : PomodoroState) : PomodoroState :=
  let s1 := { s with settings := mergeSettings s.settings p }
  match p.pomodoroDuration with
  | some d =>
      if d ≠ 0 ∧ s1.timer.mode = Mode.pomodoro then
        { s1 with timer :=
            { s1.timer with
              minutes := s1.settings.pomodoroDuration
              seconds := 0
              isRunning := false } }
      else s1
  | none => s1

/-- A full settings object passed to `updateSettings(localSettings)`:
every field present. -/
def patchOfSettings (c : PomodoroSettings) : SettingsPatch :=
  { pomodoroDuration := some c.pomodoroDuration
    shortBreakDuration := some c.shortBreakDuration
    longBreakDuration := some c.longBreakDuration
    longBreakInterval := some c.longBreakInterval
    autoStartBreaks := some c.autoStartBreaks
    autoStartPomodoros := some c.autoStartPomodoros
    notifications := some c.notifications
    sounds := some c.sounds
    theme := some c.theme }

/-- `handleSave` from `SettingsModal.tsx`: three sequential range checks
with early return (no state change), then `updateSettings(localSettings)`.
Note the source checks `pomodoroDuration`, `shortBreakDuration` and
`longBreakDuration` only. -/
def handleSave (c : PomodoroSettings) (s : PomodoroState) : PomodoroState :=
  if c.pomodoroDuration < 1 ∨ c.pomodoroDuration > 60 then s
  else if c.shortBreakDuration < 1 ∨ c.shortBreakDuration > 30 then s
  else if c.longBreakDuration < 1 ∨ c.longBreakDuration > 60 then s
  else updateSettings (patchOfSettings c) s

theorem updateDailyStats_timer (today : String) (dayOf : Nat → String)
    (s : PomodoroState) : (updateDailyStats today dayOf s).timer = s.timer := by
  simp only [updateDailyStats]
  split <;> rfl

theorem updateDailyStats_tasks (today : String) (dayOf : Nat → String)
    (s : PomodoroState) : (updateDailyStats today dayOf s).tasks = s.tasks := by
  simp only [updateDailyStats]
  split <;> rfl

theorem updateDailyStats_settings (today : String) (dayOf : Nat → String)
    (s : PomodoroState) :
    (updateDailyStats today dayOf s).settings = s.settings := by
  simp only [updateDailyStats]
  split <;> rfl

theorem completeTimer_timer (today : String) (dayOf : Nat → String)
    (s : PomodoroState) :
    (completeTimer today dayOf s).timer = completeTimerCore s.settings s.timer :=
  updateDailyStats_timer today dayOf _

/-- C1: `completeTimer` increments `completedPomodoros` exactly when leaving
`pomodoro` mode and picks `longBreak` when the incremented count is divisible
by `longBreakInterval` (else `shortBreak`); from either break mode the next
mode is `pomodoro`, with `currentCycle` incremented exactly when leaving
`longBreak`; the remaining time is reloaded to the new mode's configured
duration with seconds 0. -/
theorem completeTimer_transition (today : String) (dayOf : Nat → String)
    (s : PomodoroState) :
    (completeTimer today dayOf s).timer.completedPomodoros =
      (if s.timer.mode = Mode.pomodoro then s.timer.completedPomodoros + 1
       else s.timer.completedPomodoros) ∧
    (completeTimer today dayOf s).timer.mode =
      (if s.timer.mode = Mode.pomodoro then
        (if (s.timer.completedPomodoros + 1) % s.settings.longBreakInterval = 0
         then Mode.longBreak else Mode.shortBreak)
       else Mode.pomodoro) ∧
    (completeTimer today dayOf s).timer.currentCycle =
      (if s.timer.mode = Mode.longBreak then s.timer.currentCycle + 1
       else s.timer.currentCycle) ∧
    (completeTimer today dayOf s).timer.minutes =
      durationFor s.settings (completeTimer today dayOf s).timer.mode ∧
    (completeTimer today dayOf s).timer.seconds = 0 := by
  rw [completeTimer_timer]
  cases hm : s.timer.mode <;> simp [completeTimerCore, hm]

/-- C2 (code evaluation at the failing input): completing a `shortBreak`
session with `autoStartBreaks = true` and `autoStartPomodoros = false`
enters `pomodoro` mode with the timer running, although the claim says
entering focus with `autoStartFocus` false leaves the timer not running. -/
theorem completeTimer_autostart_bug :
    (({ initialState with
        timer := { defaultTimer with
          mode := Mode.shortBreak, minutes := 0, seconds := 0 }
        settings := { defaultSettings with
          autoStartBreaks := true, autoStartPomodoros := false } } :
        PomodoroState).settings.autoStartPomodoros = false) ∧
    (completeTimer "d" (fun _ => "d")
      { initialState with
        timer := { defaultTimer with
          mode := Mode.shortBreak, minutes := 0, seconds := 0 }
        settings := { defaultSettings with
          autoStartBreaks := true, autoStartPomodoros := false } }).timer.mode =
      Mode.pomodoro ∧
    (completeTimer "d" (fun _ => "d")
      { initialState with
        timer := { defaultTimer with
          mode := Mode.shortBreak, minutes := 0, seconds := 0 }
        settings := { defaultSettings with
          autoStartBreaks := true, autoStartPomodoros := false } }).timer.isRunning =
      true := by
  decide

/-- C4: `resetTimer` reloads the minutes from the duration configured for the
current mode, zeroes the seconds, forces `isRunning` to false, and leaves
mode, `completedPomodoros` and `currentCycle` unchanged. -/
theorem resetTimer_spec (s : PomodoroState) :
    (resetTimer s).timer.minutes = durationFor s.settings s.timer.mode ∧
    (resetTimer s).timer.seconds = 0 ∧
    (resetTimer s).timer.isRunning = false ∧
    (resetTimer s).timer.mode = s.timer.mode ∧
    (resetTimer s).timer.completedPomodoros = s.timer.completedPomodoros ∧
    (resetTimer s).timer.currentCycle = s.timer.currentCycle ∧
    (resetTimer s).tasks = s.tasks ∧
    (resetTimer s).settings = s.settings ∧
    (resetTimer s).dailyStats = s.dailyStats :=
  ⟨rfl, rfl, rfl, rfl, rfl, rfl, rfl, rfl, rfl⟩

/-- C10: `startTimer` changes only `isRunning` (to true) and `pauseTimer`
changes only `isRunning` (to false); minutes, seconds, mode, counters,
tasks, settings and daily statistics are untouched, and both operations are
idempotent. -/
theorem startPause_frame (s : PomodoroState) :
    (startTimer s).timer.isRunning = true ∧
    (pauseTimer s).timer.isRunning = false ∧
    (startTimer s).timer.minutes = s.timer.minutes ∧
    (startTimer s).timer.seconds = s.timer.seconds ∧
    (startTimer s).timer.mode = s.timer.mode ∧
    (startTimer s).timer.completedPomodoros = s.timer.completedPomodoros ∧
    (startTimer s).timer.currentCycle = s.timer.currentCycle ∧
    (startTimer s).tasks = s.tasks ∧
    (startTimer s).settings = s.settings ∧
    (startTimer s).dailyStats = s.dailyStats ∧
    (pauseTimer s).timer.minutes = s.timer.minutes ∧
    (pauseTimer s).timer.seconds = s.timer.seconds ∧
    (pauseTimer s).timer.mode = s.timer.mode ∧
    (pauseTimer s).timer.completedPomodoros = s.timer.completedPomodoros ∧
    (pauseTimer s).timer.currentCycle = s.timer.currentCycle ∧
    (pauseTimer s).tasks = s.tasks ∧
    (pauseTimer s).settings = s.settings ∧
    (pauseTimer s).dailyStats = s.dailyStats ∧
    startTimer (startTimer s) = startTimer s ∧
    pauseTimer (pauseTimer s) = pauseTimer s :=
  ⟨rfl, rfl, rfl, rfl, rfl, rfl, rfl, rfl, rfl, rfl, rfl, rfl, rfl, rfl, rfl,
   rfl, rfl, rfl, rfl, rfl⟩

theorem map_id_of_mem {α : Type} (f : α → α) :
    ∀ l : List α, (∀ a ∈ l, f a = a) → l.map f = l
  | [], _ => rfl
  | a :: l, h => by
      simp only [List.map_cons]
      rw [h a (by simp), map_id_of_mem f l fun b hb => h b (by simp [hb])]

theorem tick_step (today : String) (dayOf : Nat → String) (s : PomodoroState)
    (h : 0 < totalSeconds s) :
    totalSeconds (tick today dayOf s) = totalSeconds s - 1 ∧
    (tick today dayOf s).timer.isRunning = s.timer.isRunning := by
  have h2 : 0 < s.timer.minutes * 60 + s.timer.seconds := h
  by_cases hs : s.timer.seconds > 0
  · simp only [tick, if_pos hs, totalSeconds]
    exact ⟨by omega, by trivial⟩
  · by_cases hm : s.timer.minutes > 0
    · simp only [tick, if_neg hs, if_pos hm, totalSeconds]
      exact ⟨by omega, by trivial⟩
    · omega

theorem tick_iterate_aux (today : String) (dayOf : Nat → String) (N : Nat) :
    ∀ s : PomodoroState, N ≤ totalSeconds s →
      totalSeconds ((tick today dayOf)^[N] s) = totalSeconds s - N := by
  induction N with
  | zero => intro s _; simp
  | succ n ih =>
      intro s h
      rw [Function.iterate_succ_apply]
      have hpos : 0 < totalSeconds s := by omega
      have hstep := (tick_step today dayOf s hpos).1
      have hrec := ih (tick today dayOf s) (by omega)
      omega

/-- C3: for a running session, applying `tick` N times with N at most the
total remaining seconds decreases the total remaining seconds by exactly N;
a tick at seconds = 0 with positive minutes borrows one minute (yielding
seconds = 59); and a tick at 0:00 fires `completeTimer` instead of
decrementing further. -/
theorem tick_decrements_total (today : String) (dayOf : Nat → String)
    (s : PomodoroState) (N : Nat) (_hrun : s.timer.isRunning = true)
    (hN : N ≤ totalSeconds s) :
    totalSeconds ((tick today dayOf)^[N] s) = totalSeconds s - N ∧
    (s.timer.seconds = 0 → 0 < s.timer.minutes →
      (tick today dayOf s).timer.minutes = s.timer.minutes - 1 ∧
      (tick today dayOf s).timer.seconds = 59) ∧
    (s.timer.minutes = 0 → s.timer.seconds = 0 →
      tick today dayOf s = completeTimer today dayOf s) := by
  refine ⟨tick_iterate_aux today dayOf N s hN, ?_, ?_⟩
  · intro h0 hm
    simp [tick, h0, hm]
  · intro hm h0
    simp [tick, hm, h0]

def tickWitnessState : PomodoroState :=
  { initialState with
    timer := { defaultTimer with minutes := 1, seconds := 0, isRunning := true } }

/-- Witness for C3: at 1:00 running, one tick yields total 59, with the
minute borrowed (minutes 0, seconds 59). -/
theorem tick_decrements_total_witness :
    totalSeconds ((tick "d" (fun _ => "d"))^[1] tickWitnessState) =
      totalSeconds tickWitnessState - 1 ∧
    (tick "d" (fun _ => "d") tickWitnessState).timer.minutes = 0 ∧
    (tick "d" (fun _ => "d") tickWitnessState).timer.seconds = 59 := by
  have h := tick_decrements_total "d" (fun _ => "d") tickWitnessState 1 rfl
    (by decide)
  exact ⟨h.1, (h.2.1 rfl (by decide)).1, (h.2.1 rfl (by decide)).2⟩

def c5Candidate : PomodoroSettings :=
  { defaultSettings with longBreakInterval := 1 }

/-- C5 (code evaluation at the failing input): `handleSave` accepts a
candidate whose `longBreakInterval` is 1, outside the stated range [2..8],
and persists it over the prior value 4 — the interval field is never
validated. -/
theorem handleSave_interval_not_validated :
    initialState.settings.longBreakInterval = 4 ∧
    c5Candidate.longBreakInterval = 1 ∧
    (handleSave c5Candidate initialState).settings.longBreakInterval = 1 := by
  decide

/-- C6: `handleAddTask` rejects empty and whitespace-only text, leaving the
state unchanged, and for non-blank text appends exactly one task with the
trimmed text, `completed = false` and the current time as creation
timestamp. -/
theorem handleAddTask_spec (now : Nat) (text : String) (s : PomodoroState) :
    (jsTrim text = "" → handleAddTask now text s = s) ∧
    (jsTrim text ≠ "" →
      (handleAddTask now text s).tasks =
        s.tasks ++
          [{ id := toString now
             text := jsTrim text
             completed := false
             createdAt := now
             completedAt := none }]) := by
  constructor
  · intro h
    simp [handleAddTask, h]
  · intro h
    simp [handleAddTask, h, addTask]

/-- Witness for C6: adding "" and "   " leaves the initial state unchanged,
while adding "Write report" creates exactly that task. -/
theorem handleAddTask_spec_witness :
    handleAddTask 7 "" initialState = initialState ∧
    handleAddTask 7 "   " initialState = initialState ∧
    (handleAddTask 7 "Write report" initialState).tasks =
      [{ id := "7"
         text := "Write report"
         completed := false
         createdAt := 7
         completedAt := none }] := by
  refine ⟨(handleAddTask_spec 7 "" initialState).1 (by decide),
    (handleAddTask_spec 7 "   " initialState).1 (by decide), ?_⟩
  have h := (handleAddTask_spec 7 "Write report" initialState).2 (by decide)
  rw [h]
  decide

def c7Patch : SettingsPatch := { shortBreakDuration := some 10 }

def c7State : PomodoroState :=
  { initialState with
    timer := { defaultTimer with
      mode := Mode.shortBreak, minutes := 2, seconds := 30, isRunning := true } }

/-- C7 counterexample: editing the short-break duration (5 → 10) while a
short break is the active mode does NOT reset the countdown: the timer keeps
its partial progress (2:30) and stays running, refuting the claim that any
matching-mode duration edit reloads the full new duration. -/
theorem updateSettings_break_no_reset :
    c7State.timer.mode = Mode.shortBreak ∧
    (updateSettings c7Patch c7State).settings.shortBreakDuration = 10 ∧
    (updateSettings c7Patch c7State).timer.minutes = 2 ∧
    (updateSettings c7Patch c7State).timer.seconds = 30 ∧
    (updateSettings c7Patch c7State).timer.isRunning = true := by
  decide

/-- C7 amended: `updateSettings` resets the countdown only when the update
carries a nonzero `pomodoroDuration` and the active mode is `pomodoro`; the
timer then reloads to the merged focus duration with seconds 0 and running
false. An update without a focus duration, with a zero focus duration, or
applied in a non-focus mode leaves the timer unchanged — break-duration
edits never reset the countdown. -/
theorem updateSettings_reset_only_focus (p : SettingsPatch)
    (s : PomodoroState) :
    (updateSettings p s).settings = mergeSettings s.settings p ∧
    (∀ d, p.pomodoroDuration = some d → d ≠ 0 →
      s.timer.mode = Mode.pomodoro →
      (updateSettings p s).timer =
        { s.timer with
          minutes := (mergeSettings s.settings p).pomodoroDuration
          seconds := 0
          isRunning := false }) ∧
    (p.pomodoroDuration = none → (updateSettings p s).timer = s.timer) ∧
    (s.timer.mode ≠ Mode.pomodoro → (updateSettings p s).timer = s.timer) ∧
    (p.pomodoroDuration = some 0 → (updateSettings p s).timer = s.timer) := by
  refine ⟨?_, ?_, ?_, ?_, ?_⟩
  · simp only [updateSettings]
    cases p.pomodoroDuration with
    | none => rfl
    | some d => dsimp only; split <;> rfl
  · intro d hd hd0 hmode
    simp only [updateSettings, hd]
    rw [if_pos ⟨hd0, hmode⟩]
  · intro h
    simp only [updateSettings, h]
  · intro h
    simp only [updateSettings]
    cases p.pomodoroDuration with
    | none => rfl
    | some d =>
        dsimp only
        rw [if_neg]
        intro hc
        exact h hc.2
  · intro h
    simp only [updateSettings, h]
    rw [if_neg]
    intro hc
    exact hc.1 rfl

def c7FocusPatch : SettingsPatch := { pomodoroDuration := some 30 }

/-- Witness for the amended C7: an update carrying `pomodoroDuration = 30`
while focus is active reloads the timer to 30:00, not running. -/
theorem updateSettings_reset_only_focus_witness :
    (updateSettings c7FocusPatch initialState).timer.minutes = 30 ∧
    (updateSettings c7FocusPatch initialState).timer.seconds = 0 ∧
    (updateSettings c7FocusPatch initialState).timer.isRunning = false := by
  have h := (updateSettings_reset_only_focus c7FocusPatch initialState).2.1
    30 rfl (by decide) rfl
  rw [h]
  exact ⟨by decide, rfl, rfl⟩

def c8State : PomodoroState := addTask 1000 "b" (addTask 1000 "a" initialState)

/-- C8 (code evaluation at the failing input): two tasks added with the same
millisecond timestamp (`Date.now()` = 1000) are distinct tasks (their texts
differ) yet receive the same id "1000", so task ids are not pairwise
distinct. -/
theorem addTask_duplicate_ids :
    c8State.tasks.map Task.id = ["1000", "1000"] ∧
    c8State.tasks.map Task.text = ["a", "b"] := by
  decide

/-- C9: `toggleTask` preserves the length of the task list, leaves every
task whose id differs unchanged, and replaces a task carrying the given id
by the same task with `completed` flipped and `completedAt` stamped with the
current time on the false-to-true transition and cleared on the
true-to-false transition; `toggleTask`, `updateTask` and `deleteTask` with
an id matching no task leave the task list unchanged. -/
theorem taskOps_by_id (now : Nat) (today : String) (dayOf : Nat → String)
    (id text : String) (s : PomodoroState) :
    (toggleTask now today dayOf id s).tasks.length = s.tasks.length ∧
    (∀ i (h : i < s.tasks.length)
        (h2 : i < (toggleTask now today dayOf id s).tasks.length),
      ((s.tasks.get ⟨i, h⟩).id ≠ id →
        (toggleTask now today dayOf id s).tasks.get ⟨i, h2⟩ =
          s.tasks.get ⟨i, h⟩) ∧
      ((s.tasks.get ⟨i, h⟩).id = id →
        (toggleTask now today dayOf id s).tasks.get ⟨i, h2⟩ =
          { s.tasks.get ⟨i, h⟩ with
            completed := !(s.tasks.get ⟨i, h⟩).completed
            completedAt :=
              if (s.tasks.get ⟨i, h⟩).completed then none
              else some now })) ∧
    ((∀ t ∈ s.tasks, t.id ≠ id) →
      (toggleTask now today dayOf id s).tasks = s.tasks ∧
      (updateTask id text s).tasks = s.tasks ∧
      (deleteTask id s).tasks = s.tasks) := by
  have htasks : (toggleTask now today dayOf id s).tasks =
      s.tasks.map fun task =>
        if task.id == id then
          { task with
            completed := !task.completed
            completedAt := if !task.completed then some now else none }
        else task :=
    updateDailyStats_tasks today dayOf _
  refine ⟨?_, ?_, ?_⟩
  · rw [htasks, List.length_map]
  · intro i h h2
    constructor
    · intro hne
      simp only [List.get_eq_getElem] at hne
      simp only [htasks, List.get_eq_getElem, List.getElem_map]
      simp [hne]
    · intro heq
      simp only [htasks, List.get_eq_getElem, List.getElem_map]
      cases hc : (s.tasks.get ⟨i, h⟩).completed <;>
        simp_all [List.get_eq_getElem]
  · intro hall
    refine ⟨?_, ?_, ?_⟩
    · rw [htasks]
      apply map_id_of_mem
      intro a ha
      have hne := hall a ha
      simp [hne]
    · show s.tasks.map _ = s.tasks
      apply map_id_of_mem
      intro a ha
      have hne := hall a ha
      simp [hne]
    · show s.tasks.filter _ = s.tasks
      apply List.filter_eq_self.2
      intro a ha
      have hne := hall a ha
      simpa using hne

def c9Tasks : List Task :=
  [{ id := "1", text := "a", completed := false, createdAt := 1,
     completedAt := none },
   { id := "2", text := "b", completed := true, createdAt := 2,
     completedAt := some 3 }]

def c9State : PomodoroState := { initialState with tasks := c9Tasks }

/-- Witness for C9: toggling id "1" completes exactly the first task and
stamps `completedAt` with the current time, leaving the second task
unchanged; the three operations with an unknown id leave the task list
unchanged. -/
theorem taskOps_by_id_witness :
    ((toggleTask 50 "d" (fun _ => "d") "1" c9State).tasks.get
        ⟨0, by decide⟩ =
      { id := "1", text := "a", completed := true, createdAt := 1,
        completedAt := some 50 }) ∧
    ((toggleTask 50 "d" (fun _ => "d") "1" c9State).tasks.get
        ⟨1, by decide⟩ =
      { id := "2", text := "b", completed := true, createdAt := 2,
        completedAt := some 3 }) ∧
    (deleteTask "zzz" c9State).tasks = c9Tasks := by
  have h := taskOps_by_id 50 "d" (fun _ => "d") "1" "x" c9State
  have hz := taskOps_by_id 50 "d" (fun _ => "d") "zzz" "x" c9State
  refine ⟨?_, ?_, ?_⟩
  · have h1 := (h.2.1 0 (by decide) (by decide)).2 (by decide)
    exact h1.trans (by decide)
  · have h1 := (h.2.1 1 (by decide) (by decide)).1 (by decide)
    exact h1.trans (by decide)
  · exact (hz.2.2 (by decide)).2.2

end ChronoBoost
